import Mathlib

/-!
# Verification of the superw wallet backend core

Shallow embedding of the ledger-and-refund core of the repository
(src/server/routes.ts and src/server/storage.ts):

* the tax-refund estimation handler (POST /api/tax-refund/estimate,
  routes.ts lines 1346-1393);
* the XP balance ledger of the payment handlers
  (POST /api/payments/send XP branch, routes.ts lines 386-438;
  POST /api/payments/deposit, routes.ts lines 620-683);
* transaction listing (DatabaseStorage.getTransactionsByUserId,
  storage.ts lines 131-133);
* tax-refund processing (DatabaseStorage.processTaxRefund,
  storage.ts lines 145-153).

Modelling conventions: JavaScript numbers are modelled as exact
rationals (the claims only exercise ranges where JS float arithmetic
is exact); request body fields that pass through parseFloat are
modelled as `Option Rat`, with `none` standing for a value whose
parseFloat is NaN (non-numeric input); the database is modelled as
in-memory lists of rows, with SQL SELECT by key as `List.find?`,
UPDATE as a `List.map` that rewrites matching rows, and INSERT as an
append; the DB clock NOW() and row timestamps are threaded as a `Nat`
parameter.  Random transaction-hash generation is out of scope (the
hash participates in no claim) and is omitted from the record.
-/

/-! ## Tax Calculator (routes.ts 1346-1393, POST /api/tax-refund/estimate) -/

/-- Bracket-selected flat tax rate, routes.ts 1355-1360:
rate 0.06 for income up to 12.000.000, 0.15 up to 46.000.000,
0.24 up to 88.000.000, 0.35 up to 150.000.000, else 0.38. -/
def taxRateFor (income : ℚ) : ℚ :=
  if income ≤ 12000000 then 6/100
  else if income ≤ 46000000 then 15/100
  else if income ≤ 88000000 then 24/100
  else if income ≤ 150000000 then 35/100
  else 38/100

/-- JavaScript Math.round: round half up, as an integer. -/
def jsRound (x : ℚ) : ℤ := ⌊x + 1/2⌋

/-- The taxBreakdown object of the estimate response, routes.ts 1381-1385.
`effectiveRate` is rendered by toFixed(2) in the source; we keep the
exact rational (for income 0 the source produces the string "NaN",
while rational division by zero yields 0; no claim touches that field
at income 0). -/
structure TaxBreakdown where
  taxableIncome : ℚ
  calculatedTax : ℚ
  effectiveRate : ℚ
  deriving DecidableEq

/-- The estimate response object, routes.ts 1372-1386. -/
structure TaxEstimate where
  estimatedAmount : ℤ
  processingTime : String
  eligibilityScore : ℤ
  requiredDocuments : List String
  taxBreakdown : TaxBreakdown
  deriving DecidableEq

/-- The body of the POST /api/tax-refund/estimate handler,
routes.ts 1346-1393.  A body field is `some q` when parseFloat
returns the number q and `none` when it returns NaN; the source
coerces with `parseFloat(x) || 0`, i.e. `Option.getD 0` (a parsed 0
also maps to 0 through `|| 0`). -/
def estimateHandler (grossIncome taxPaid deductions : Option ℚ)
    (refundType : String) : TaxEstimate :=
  let income := grossIncome.getD 0
  let paid := taxPaid.getD 0
  let deduct := deductions.getD 0
  let taxRate := taxRateFor income
  let taxableIncome := max 0 (income - deduct)
  let calculatedTax := taxableIncome * taxRate
  let estimatedAmount := max 0 (paid - calculatedTax)
  let eligibilityScore : ℤ :=
    85 + (if income > 100000000 then -10 else 0)
       + (if deduct > income * (3/10) then -5 else 0)
       + (if refundType = "income_tax" then 5 else 0)
  { estimatedAmount := jsRound estimatedAmount
    processingTime := if estimatedAmount > 5000000 then "5-7일" else "3-5일"
    eligibilityScore := min 100 (max 0 eligibilityScore)
    requiredDocuments := ["근로소득원천징수영수증", "소득공제증명서", "은행통장 사본"]
    taxBreakdown :=
      { taxableIncome := taxableIncome
        calculatedTax := calculatedTax
        effectiveRate := calculatedTax / income * 100 } }

/-- The estimate route as seen by a client: the handler body throws no
exception on any input (every operation above is total), so the
try/catch of routes.ts 1347/1389 always takes the success branch and
the route always answers 200 with the estimate. -/
def estimateRoute (grossIncome taxPaid deductions : Option ℚ)
    (refundType : String) : Except String TaxEstimate :=
  Except.ok (estimateHandler grossIncome taxPaid deductions refundType)

/-! ## Balance Ledger (routes.ts 386-438 send XP branch, 620-683 deposit) -/

/-- The single demo wallet address hard-coded in both payment handlers
(routes.ts 388 and 623). -/
def demoAddress : String := "0xb8c1f75bb7550bb51039c64e92c78d15ad9dbbe1"

/-- A wallet_balances row (address is the lookup key of both handlers). -/
structure WalletRow where
  address : String
  balance : ℚ
  assetType : String
  updatedAt : Nat
  deriving DecidableEq

/-- A transactions row, restricted to the columns the handlers set and
the claims mention.  The random txHash is omitted (out of scope);
createdAt is the DB insertion timestamp. -/
structure Txn where
  userId : Nat
  assetType : String
  amount : ℚ
  toAddress : String
  fromAddress : String
  status : String
  transactionType : String
  createdAt : Nat
  deriving DecidableEq

/-- The database state the ledger touches: the wallet_balances table
and the transactions table (rows in insertion order, INSERT appends). -/
structure DBState where
  walletBalances : List WalletRow
  transactions : List Txn
  deriving DecidableEq

/-- SELECT balance FROM wallet_balances WHERE address = $1
(routes.ts 391-394 and 631-634): the first row with the address. -/
def lookupBalance (rows : List WalletRow) (addr : String) : Option ℚ :=
  (rows.find? (fun r => r.address == addr)).map (fun r => r.balance)

/-- UPDATE wallet_balances SET balance = $1, updated_at = NOW()
WHERE address = $2 (routes.ts 427-430 and 644-647): rewrites matching
rows, inserts nothing. -/
def updateBalance (rows : List WalletRow) (addr : String) (b : ℚ) (now : Nat) :
    List WalletRow :=
  rows.map (fun r =>
    if r.address == addr then { r with balance := b, updatedAt := now } else r)

/-- The balance the send handler works with, routes.ts 396-398:
the stored row if present, otherwise a default of 1.0 XP. -/
def sendReadBalance (st : DBState) : ℚ :=
  match lookupBalance st.walletBalances demoAddress with
  | some b => b
  | none => 1

/-- The balance the deposit handler works with, routes.ts 636-638:
the stored row if present, otherwise 0.0. -/
def depositReadBalance (st : DBState) : ℚ :=
  (lookupBalance st.walletBalances demoAddress).getD 0

/-- The transaction record the send handler inserts, routes.ts 412-421. -/
def sendTxn (userId : Nat) (toAddress : String) (amount : ℚ) (now : Nat) : Txn :=
  { userId := userId, assetType := "XP", amount := amount,
    toAddress := toAddress, fromAddress := demoAddress,
    status := "completed", transactionType := "send", createdAt := now }

/-- The transaction record the deposit handler inserts, routes.ts 658-667. -/
def depositTxn (userId : Nat) (assetType : String) (amount : ℚ) (now : Nat) : Txn :=
  { userId := userId, assetType := assetType, amount := amount,
    toAddress := demoAddress, fromAddress := "external",
    status := "completed", transactionType := "receive", createdAt := now }

/-- Outcome of POST /api/payments/send (XP branch). -/
inductive SendResult where
  /-- 400 Missing required transaction parameters, routes.ts 378-380. -/
  | missingParams
  /-- 400 Invalid transaction amount, routes.ts 382-384. -/
  | invalidAmount
  /-- 400 Insufficient balance for withdrawal, reporting the current
  balance and the requested amount, routes.ts 401-407. -/
  | insufficientBalance (currentBalance requestedAmount : ℚ)
  /-- 200 withdrawal completed, reporting previous and new balance,
  routes.ts 432-438. -/
  | ok (previousBalance newBalance : ℚ)
  deriving DecidableEq

/-- Outcome of POST /api/payments/deposit. -/
inductive DepositResult where
  /-- 400 Invalid deposit amount, routes.ts 626-628. -/
  | invalidAmount
  /-- 200 deposit completed, reporting previous and new balance. -/
  | ok (previousBalance newBalance : ℚ)
  deriving DecidableEq

/-- Database effects the send handler performs, in program order,
used to record the order of the read / check / insert / write steps. -/
inductive DbEffect where
  /-- SELECT balance, routes.ts 391. -/
  | readBalance
  /-- the sufficiency comparison, routes.ts 401. -/
  | checkSufficient
  /-- storage.createTransaction, routes.ts 423. -/
  | recordTransaction
  /-- UPDATE wallet_balances, routes.ts 427. -/
  | writeBalance
  deriving DecidableEq

/-- The POST /api/payments/send handler for assetType XP,
routes.ts 373-438, together with the resulting database state and the
ordered trace of its steps.  The amount is the parseFloat of the body
field (claims only concern numeric amounts); an empty toAddress models
the falsy missing-parameter check of routes.ts 378. -/
def sendXP (st : DBState) (userId : Nat) (toAddress : String) (amount : ℚ)
    (now : Nat) : SendResult × DBState × List DbEffect :=
  if toAddress = "" then (SendResult.missingParams, st, [])
  else if amount ≤ 0 then (SendResult.invalidAmount, st, [])
  else if sendReadBalance st < amount then
    (SendResult.insufficientBalance (sendReadBalance st) amount, st,
      [DbEffect.readBalance, DbEffect.checkSufficient])
  else
    (SendResult.ok (sendReadBalance st) (sendReadBalance st - amount),
      { walletBalances :=
          updateBalance st.walletBalances demoAddress
            (sendReadBalance st - amount) now,
        transactions := st.transactions ++ [sendTxn userId toAddress amount now] },
      [DbEffect.readBalance, DbEffect.checkSufficient,
        DbEffect.recordTransaction, DbEffect.writeBalance])

/-- The POST /api/payments/deposit handler, routes.ts 620-683: reads
the current balance (0 when no row exists), then updates the row when
one exists and inserts one otherwise (routes.ts 643-653), then records
the receive transaction. -/
def deposit (st : DBState) (userId : Nat) (amount : ℚ) (assetType : String)
    (now : Nat) : DepositResult × DBState :=
  if amount ≤ 0 then (DepositResult.invalidAmount, st)
  else
    (DepositResult.ok (depositReadBalance st) (depositReadBalance st + amount),
      { walletBalances :=
          if (lookupBalance st.walletBalances demoAddress).isSome then
            updateBalance st.walletBalances demoAddress
              (depositReadBalance st + amount) now
          else
            st.walletBalances ++
              [{ address := demoAddress,
                 balance := depositReadBalance st + amount,
                 assetType := assetType, updatedAt := now }],
        transactions :=
          st.transactions ++ [depositTxn userId assetType amount now] })

/-! ## Sequences of ledger operations

For the ledger properties quantified over operation sequences, an
operation is a send (debit) or a deposit (credit) amount; userId,
destination address and clock do not influence the balance arithmetic
and are fixed. -/

/-- A ledger operation: an XP debit through the send handler, or a
credit through the deposit handler. -/
inductive LedgerOp where
  | send (amount : ℚ)
  | dep (amount : ℚ)
  deriving DecidableEq

/-- The database state after one ledger operation. -/
def applyOp (st : DBState) : LedgerOp → DBState
  | LedgerOp.send a => (sendXP st 0 "dest" a 0).2.1
  | LedgerOp.dep a => (deposit st 0 a "XP" 0).2

/-- The database state after a sequence of ledger operations,
applied one at a time, left to right. -/
def applyOps (st : DBState) : List LedgerOp → DBState
  | [] => st
  | op :: rest => applyOps (applyOp st op) rest

/-- The signed delta an operation actually applies from a given state:
the (signed) amount when the handler reports success, 0 when it
rejects the operation. -/
def appliedDelta (st : DBState) : LedgerOp → ℚ
  | LedgerOp.send a =>
      match (sendXP st 0 "dest" a 0).1 with
      | SendResult.ok _ _ => -a
      | _ => 0
  | LedgerOp.dep a =>
      match (deposit st 0 a "XP" 0).1 with
      | DepositResult.ok _ _ => a
      | _ => 0

/-- Sum of the deltas actually applied along a sequence. -/
def appliedDeltas (st : DBState) : List LedgerOp → ℚ
  | [] => 0
  | op :: rest => appliedDelta st op + appliedDeltas (applyOp st op) rest

/-- The stored balance of the demo address, read as 0 when no row
exists (the read the specification prescribes for the ledger). -/
def storedBalance (st : DBState) : ℚ :=
  (lookupBalance st.walletBalances demoAddress).getD 0

/-- A wallet_balances row for the demo address exists. -/
def rowExists (st : DBState) : Prop :=
  (lookupBalance st.walletBalances demoAddress).isSome = true

/-- Every stored wallet balance is non-negative. -/
def NonNegState (st : DBState) : Prop :=
  ∀ r ∈ st.walletBalances, 0 ≤ r.balance

/-! ## Transaction listing (storage.ts 131-133) -/

/-- DatabaseStorage.getTransactionsByUserId, storage.ts 131-133:
SELECT from transactions WHERE user_id = $1, with no ORDER BY clause;
the rows come back in table (insertion) order. -/
def getTransactionsByUserId (st : DBState) (userId : Nat) : List Txn :=
  st.transactions.filter (fun t => t.userId == userId)

/-! ## Refund Workflow (storage.ts 145-153) -/

/-- A tax_refunds row, restricted to the columns processTaxRefund
touches plus identifying fields. -/
structure TaxRefund where
  id : Nat
  userId : Nat
  refundAmount : ℚ
  status : String
  processedAt : Option Nat
  deriving DecidableEq

/-- DatabaseStorage.processTaxRefund, storage.ts 145-153:
status := action == "approve" ? "approved" : "rejected"; then
UPDATE tax_refunds SET status, processed_at WHERE id = refundId
RETURNING; the destructured first returned row (undefined when the id
is unknown) is the result.  No check of the current status is made. -/
def processTaxRefund (store : List TaxRefund) (refundId : Nat) (action : String)
    (now : Nat) : Option TaxRefund × List TaxRefund :=
  let status := if action = "approve" then "approved" else "rejected"
  let updated := store.map (fun r =>
    if r.id == refundId then { r with status := status, processedAt := some now }
    else r)
  ((updated.find? (fun r => r.id == refundId)), updated)

/-! ## Claims about the Tax Calculator -/

/-- C1: for every numeric grossIncome, taxPaid and deductions, the
estimate computes taxableIncome = max(0, grossIncome - deductions),
selects one flat rate by the gross-income bracket, and returns
calculatedTax = taxableIncome * rate and
refundAmount = max(0, taxPaid - calculatedTax).  The last equation
fails on the code: the handler returns
Math.round(max(0, taxPaid - calculatedTax)) (routes.ts 1373).  At
grossIncome 10.000.000, taxPaid 600.000 + 3/10, deductions 0, the
claimed refund is 3/10 while the handler returns 0. -/
theorem c1_counterexample :
    ((estimateHandler (some 10000000) (some (600000 + 3/10)) (some 0)
        "").estimatedAmount : ℚ)
      ≠ max 0 ((600000 + 3/10)
          - (estimateHandler (some 10000000) (some (600000 + 3/10)) (some 0)
              "").taxBreakdown.calculatedTax) := by
  norm_num [estimateHandler, taxRateFor, jsRound]

/-- C1 as amended: for every numeric grossIncome, taxPaid and
deductions, taxableIncome = max(0, grossIncome - deductions), the rate
is the single flat rate selected by the gross-income bracket
(6 percent up to 12.000.000, then 15, 24, 35 percent at the stated
boundaries, 38 percent above 150.000.000),
calculatedTax = taxableIncome * rate, and the returned refund amount
is max(0, taxPaid - calculatedTax) rounded to the nearest integer
(Math.round); in particular estimate(10.000.000, 1.000.000, 0) yields
rate 6 percent, calculatedTax 600.000 and refund 400.000. -/
theorem c1_amended_estimate (gi tp d : ℚ) (rt : String) :
    (estimateHandler (some gi) (some tp) (some d) rt).taxBreakdown.taxableIncome
        = max 0 (gi - d)
    ∧ (estimateHandler (some gi) (some tp) (some d) rt).taxBreakdown.calculatedTax
        = max 0 (gi - d) * taxRateFor gi
    ∧ (estimateHandler (some gi) (some tp) (some d) rt).estimatedAmount
        = jsRound (max 0 (tp - max 0 (gi - d) * taxRateFor gi))
    ∧ taxRateFor 12000000 = 6/100
    ∧ taxRateFor 12000001 = 15/100
    ∧ taxRateFor 46000000 = 15/100
    ∧ taxRateFor 46000001 = 24/100
    ∧ taxRateFor 88000000 = 24/100
    ∧ taxRateFor 88000001 = 35/100
    ∧ taxRateFor 150000000 = 35/100
    ∧ taxRateFor 150000001 = 38/100
    ∧ taxRateFor 10000000 = 6/100
    ∧ (estimateHandler (some 10000000) (some 1000000) (some 0)
        rt).taxBreakdown.calculatedTax = 600000
    ∧ (estimateHandler (some 10000000) (some 1000000) (some 0)
        rt).estimatedAmount = 400000 := by
  refine ⟨rfl, rfl, rfl, ?_, ?_, ?_, ?_, ?_, ?_, ?_, ?_, ?_, ?_, ?_⟩
  all_goals norm_num [estimateHandler, taxRateFor, jsRound]

/-- C8: the claim that the estimate fails with InvalidArgument exactly
on non-numeric input is false on the code: the handler coerces every
non-numeric field to 0 (parseFloat(x) || 0, routes.ts 1350-1352) and
always succeeds.  With a non-numeric gross income and deductions and
taxPaid 1.000.000 the route answers successfully with the estimate of
(0, 1.000.000, 0): refund 1.000.000 at rate 6 percent. -/
theorem c8_counterexample :
    estimateRoute none (some 1000000) none ""
        = Except.ok (estimateHandler (some 0) (some 1000000) (some 0) "")
    ∧ (estimateRoute none (some 1000000) none "").isOk = true
    ∧ (estimateHandler none (some 1000000) none "").estimatedAmount = 1000000 := by
  refine ⟨rfl, rfl, ?_⟩
  norm_num [estimateHandler, taxRateFor, jsRound]

/-- C8 as amended: the estimate has no side effects and is
deterministic (it is a pure function of its inputs), and it never
fails: every non-numeric input is coerced to 0 and the route succeeds
on all inputs. -/
theorem c8_amended_total (gi tp d : Option ℚ) (rt : String) :
    (estimateRoute gi tp d rt).isOk = true
    ∧ estimateRoute gi tp d rt
        = estimateRoute (some (gi.getD 0)) (some (tp.getD 0)) (some (d.getD 0)) rt :=
  ⟨rfl, rfl⟩

/-! ## Claims about the Refund Workflow -/

/-- find? over a map by an id-preserving row update commutes. -/
theorem taxRefund_find?_map (store : List TaxRefund) (refundId : Nat)
    (f : TaxRefund → TaxRefund) (hf : ∀ r, (f r).id = r.id) :
    (store.map f).find? (fun r => r.id == refundId)
      = (store.find? (fun r => r.id == refundId)).map f := by
  induction store with
  | nil => rfl
  | cons r rest ih =>
    by_cases h : r.id = refundId
    · simp [List.find?_cons, hf, h]
    · simp [List.find?_cons, hf, h, ih]

/-- A tax_refunds row literal (fields in declaration order). -/
def mkRefund (id userId : Nat) (amount : ℚ) (status : String)
    (processedAt : Option Nat) : TaxRefund :=
  { id := id, userId := userId, refundAmount := amount, status := status,
    processedAt := processedAt }

/-- The row update processTaxRefund performs, storage.ts 146-150. -/
def processUpdateRow (refundId : Nat) (action : String) (now : Nat)
    (r : TaxRefund) : TaxRefund :=
  if r.id == refundId then
    { r with status := if action = "approve" then "approved" else "rejected",
             processedAt := some now }
  else r

/-- processTaxRefund written through processUpdateRow. -/
theorem processTaxRefund_eq (store : List TaxRefund) (refundId : Nat)
    (action : String) (now : Nat) :
    processTaxRefund store refundId action now
      = ((store.map (processUpdateRow refundId action now)).find?
            (fun r => r.id == refundId),
          store.map (processUpdateRow refundId action now)) := rfl

/-- When a row with the id is stored, processTaxRefund returns it with
status overwritten by the action and processedAt set to now. -/
theorem processTaxRefund_fst (store : List TaxRefund) (refundId : Nat)
    (action : String) (now : Nat) (r : TaxRefund)
    (hfind : store.find? (fun x => x.id == refundId) = some r) :
    (processTaxRefund store refundId action now).1
      = some { r with
          status := if action = "approve" then "approved" else "rejected",
          processedAt := some now } := by
  have hr := List.find?_some hfind
  rw [processTaxRefund_eq]
  rw [taxRefund_find?_map store refundId _
    (fun x => by by_cases h : x.id = refundId <;> simp [processUpdateRow, h])]
  rw [hfind]
  simp [processUpdateRow, hr]

/-- The store after processTaxRefund still holds a first row with the
id, namely the overwritten one. -/
theorem processTaxRefund_snd_find (store : List TaxRefund) (refundId : Nat)
    (action : String) (now : Nat) (r : TaxRefund)
    (hfind : store.find? (fun x => x.id == refundId) = some r) :
    ((processTaxRefund store refundId action now).2).find?
        (fun x => x.id == refundId)
      = some { r with
          status := if action = "approve" then "approved" else "rejected",
          processedAt := some now } := by
  have hr := List.find?_some hfind
  rw [processTaxRefund_eq]
  rw [taxRefund_find?_map store refundId _
    (fun x => by by_cases h : x.id = refundId <;> simp [processUpdateRow, h])]
  rw [hfind]
  simp [processUpdateRow, hr]

/-- C9: for every stored refund and every action string,
processTaxRefund sets the status to approved exactly when the action
equals "approve" and to rejected for any other string, regardless of
the current status, overwriting even a terminal status and updating
processedAt each time (storage.ts 145-153 performs no status check). -/
theorem c9_process_overwrites (store : List TaxRefund) (refundId : Nat)
    (action : String) (now : Nat) (r : TaxRefund)
    (hfind : store.find? (fun x => x.id == refundId) = some r) :
    (processTaxRefund store refundId action now).1
      = some { r with
          status := if action = "approve" then "approved" else "rejected",
          processedAt := some now } :=
  processTaxRefund_fst store refundId action now r hfind

/-- C9 witness: an already completed refund, handed the arbitrary
action string "frobnicate", is overwritten to rejected with a fresh
processedAt. -/
theorem c9_process_overwrites_witness :
    (processTaxRefund [mkRefund 1 7 100 "completed" (some 5)]
        1 "frobnicate" 9).1
      = some (mkRefund 1 7 100 "rejected" (some 9)) := by
  have h := c9_process_overwrites [mkRefund 1 7 100 "completed" (some 5)]
    1 "frobnicate" 9 (mkRefund 1 7 100 "completed" (some 5)) rfl
  simpa [mkRefund] using h

/-- C4: the claim that process(id, action) fails with NotFound on an
unknown id and with InvalidTransition on a non-pending refund fails on
the code: storage.ts 145-153 checks neither; on an unknown id the
UPDATE touches nothing and undefined is returned (no failure), and a
second process on the same id succeeds again, overwriting status and
processedAt.  Concretely: approving pending refund 1 twice succeeds
both times, the second call returning the refund with processedAt
moved from 10 to 20 instead of failing with InvalidTransition. -/
theorem c4_counterexample :
    (processTaxRefund [mkRefund 1 7 400000 "pending" none] 1 "approve" 10).1
        = some (mkRefund 1 7 400000 "approved" (some 10))
    ∧ (processTaxRefund
          (processTaxRefund [mkRefund 1 7 400000 "pending" none]
            1 "approve" 10).2
          1 "approve" 20).1
        = some (mkRefund 1 7 400000 "approved" (some 20))
    ∧ (processTaxRefund ([] : List TaxRefund) 1 "approve" 10)
        = (none, []) := by
  refine ⟨?_, ?_, rfl⟩ <;> simp [processTaxRefund, mkRefund]

/-- C4 as amended: processTaxRefund performs no NotFound and no
InvalidTransition check.  On a stored pending refund,
process(id, "approve") sets status approved and processedAt; a second
process on the same id succeeds again (returns the refund) and
overwrites status and processedAt once more; on an unknown id the
store is unchanged and no row (undefined) is returned, without a
distinct failure. -/
theorem c4_amended_process (store : List TaxRefund) (refundId : Nat)
    (now1 now2 : Nat) (r : TaxRefund)
    (hfind : store.find? (fun x => x.id == refundId) = some r)
    (_hpending : r.status = "pending") :
    (processTaxRefund store refundId "approve" now1).1
        = some { r with status := "approved", processedAt := some now1 }
    ∧ (processTaxRefund (processTaxRefund store refundId "approve" now1).2
          refundId "approve" now2).1
        = some { r with status := "approved", processedAt := some now2 } := by
  constructor
  · have h := processTaxRefund_fst store refundId "approve" now1 r hfind
    simpa using h
  · have h2 := processTaxRefund_snd_find store refundId "approve" now1 r hfind
    have h := processTaxRefund_fst
      (processTaxRefund store refundId "approve" now1).2 refundId "approve" now2
      { r with status := "approved", processedAt := some now1 } (by simpa using h2)
    simpa using h

/-- C4 amended witness: the two-call scenario at a concrete pending
refund. -/
theorem c4_amended_process_witness :
    (processTaxRefund [mkRefund 3 2 5 "pending" none] 3 "approve" 11).1
        = some (mkRefund 3 2 5 "approved" (some 11))
    ∧ (processTaxRefund
          (processTaxRefund [mkRefund 3 2 5 "pending" none] 3 "approve" 11).2
          3 "approve" 12).1
        = some (mkRefund 3 2 5 "approved" (some 12)) := by
  have h := c4_amended_process [mkRefund 3 2 5 "pending" none] 3 11 12
    (mkRefund 3 2 5 "pending" none) rfl rfl
  simpa [mkRefund] using h

/-! ## Claims about the Balance Ledger -/

/-- A wallet_balances row for the demo address. -/
def demoRow (balance : ℚ) (updatedAt : Nat) : WalletRow :=
  { address := demoAddress, balance := balance, assetType := "XP",
    updatedAt := updatedAt }

/-- The empty database. -/
def emptyState : DBState := { walletBalances := [], transactions := [] }

/-- A database holding one demo-address row with balance 3 and no
transactions. -/
def ledgerState3 : DBState :=
  { walletBalances := [demoRow 3 0], transactions := [] }

/-- Looking the updated address up after updateBalance yields the
written balance exactly when a row existed. -/
theorem lookupBalance_updateBalance (rows : List WalletRow) (addr : String)
    (b : ℚ) (now : Nat) :
    lookupBalance (updateBalance rows addr b now) addr
      = (lookupBalance rows addr).map (fun _ => b) := by
  induction rows with
  | nil => rfl
  | cons r rest ih =>
    unfold lookupBalance updateBalance at ih ⊢
    rw [List.map_cons]
    by_cases h : (r.address == addr) = true
    · rw [if_pos h]
      simp only [List.find?]
      simp [h]
    · rw [if_neg h]
      simp only [List.find?]
      rw [Bool.not_eq_true] at h
      simp only [h]
      exact ih

/-- updateBalance with a non-negative value preserves row
non-negativity. -/
theorem nonneg_updateBalance (rows : List WalletRow) (addr : String) (b : ℚ)
    (now : Nat) (h : ∀ r ∈ rows, 0 ≤ r.balance) (hb : 0 ≤ b) :
    ∀ r ∈ updateBalance rows addr b now, 0 ≤ r.balance := by
  intro r hr
  obtain ⟨x, hx, rfl⟩ := List.mem_map.mp hr
  by_cases hxa : (x.address == addr) = true
  · simp [hxa, hb]
  · simpa [hxa] using h x hx

/-- C3: a debit exceeding the read balance fails with the insufficient
balance error, reporting the current balance and the requested amount,
and mutates neither the wallet row nor the transaction log
(routes.ts 401-407 returns before any write). -/
theorem c3_insufficient_no_mutation (st : DBState) (userId : Nat)
    (toAddress : String) (amount : ℚ) (now : Nat)
    (ht : toAddress ≠ "") (ha : 0 < amount)
    (hlow : sendReadBalance st < amount) :
    sendXP st userId toAddress amount now
      = (SendResult.insufficientBalance (sendReadBalance st) amount, st,
          [DbEffect.readBalance, DbEffect.checkSufficient]) := by
  unfold sendXP
  rw [if_neg ht, if_neg (not_le.mpr ha), if_pos hlow]

/-- C3 witness: a debit of 5 against a stored balance of 3 fails with
the insufficient balance error reporting balance 3 and amount 5, and
the state (balance still 3, empty log) is unchanged. -/
theorem c3_insufficient_no_mutation_witness :
    sendXP ledgerState3 4 "dest" 5 0
      = (SendResult.insufficientBalance 3 5, ledgerState3,
          [DbEffect.readBalance, DbEffect.checkSufficient]) := by
  have hread : sendReadBalance ledgerState3 = 3 := by
    simp [sendReadBalance, lookupBalance, ledgerState3, demoRow]
  have h := c3_insufficient_no_mutation ledgerState3 4 "dest" 5 0
    (by simp) (by norm_num) (by rw [hread]; norm_num)
  rw [hread] at h
  exact h

/-- C5: the claim that both ledger paths read a missing balance row as
0 fails on the code: the deposit path does (routes.ts 636-638), but
the send path defaults a missing row to 1.0 XP (routes.ts 396-398).
Against the empty database, a send of 2 XP is rejected reporting a
current balance of 1, not 0. -/
theorem c5_counterexample :
    (sendXP emptyState 0 "dest" 2 0).1 = SendResult.insufficientBalance 1 2
    ∧ sendReadBalance emptyState = 1
    ∧ (1 : ℚ) ≠ 0 := by
  have hread : sendReadBalance emptyState = 1 := by
    simp [sendReadBalance, lookupBalance, emptyState]
  refine ⟨?_, hread, by norm_num⟩
  unfold sendXP
  rw [if_neg (show ("dest" : String) ≠ "" by simp),
    if_neg (by norm_num : ¬((2 : ℚ) ≤ 0)), hread,
    if_pos (by norm_num : (1 : ℚ) < 2)]

/-- C5 as amended: with no stored row for the address, the deposit
(credit) path reads the current balance as 0, while the send (debit)
path reads it as 1.0 XP; accordingly a first deposit of a > 0 reports
previous balance 0 and new balance a. -/
theorem c5_amended_default_reads (st : DBState) (userId : Nat) (now : Nat)
    (hnone : lookupBalance st.walletBalances demoAddress = none) :
    depositReadBalance st = 0
    ∧ sendReadBalance st = 1
    ∧ ∀ a : ℚ, 0 < a →
        (deposit st userId a "XP" now).1 = DepositResult.ok 0 a := by
  refine ⟨?_, ?_, ?_⟩
  · simp [depositReadBalance, hnone]
  · simp [sendReadBalance, hnone]
  · intro a ha
    unfold deposit
    rw [if_neg (not_le.mpr ha)]
    simp [depositReadBalance, hnone]

/-- C5 amended witness: the defaults evaluated on the empty database,
and a first deposit of 2 reporting previous balance 0. -/
theorem c5_amended_default_reads_witness :
    depositReadBalance emptyState = 0
    ∧ sendReadBalance emptyState = 1
    ∧ (deposit emptyState 0 2 "XP" 0).1 = DepositResult.ok 0 2 :=
  ⟨(c5_amended_default_reads emptyState 0 0 rfl).1,
   (c5_amended_default_reads emptyState 0 0 rfl).2.1,
   (c5_amended_default_reads emptyState 0 0 rfl).2.2 2 (by norm_num)⟩

/-- C6: the claim that a successful debit reads, validates, writes the
new balance and then records the transaction fails on the code: the
send handler records the transaction (routes.ts 423) before writing
the new balance (routes.ts 427).  On a successful debit of 2 against a
balance of 3 the performed order is read, check, record, write, which
differs from the claimed read, check, write, record. -/
theorem c6_counterexample :
    (sendXP ledgerState3 0 "dest" 2 0).2.2
        = [DbEffect.readBalance, DbEffect.checkSufficient,
           DbEffect.recordTransaction, DbEffect.writeBalance]
    ∧ [DbEffect.readBalance, DbEffect.checkSufficient,
        DbEffect.recordTransaction, DbEffect.writeBalance]
      ≠ [DbEffect.readBalance, DbEffect.checkSufficient,
          DbEffect.writeBalance, DbEffect.recordTransaction] := by
  refine ⟨?_, by decide⟩
  have hread : sendReadBalance ledgerState3 = 3 := by
    simp [sendReadBalance, lookupBalance, ledgerState3, demoRow]
  unfold sendXP
  rw [if_neg (show ("dest" : String) ≠ "" by simp),
    if_neg (by norm_num : ¬((2 : ℚ) ≤ 0)), hread,
    if_neg (by norm_num : ¬((3 : ℚ) < 2))]

/-- C6 as amended: every successful debit performs its steps in the
order read current balance, validate sufficiency, record the
transaction, and then write the new balance. -/
theorem c6_amended_effect_order (st : DBState) (userId : Nat)
    (toAddress : String) (amount : ℚ) (now : Nat)
    (ht : toAddress ≠ "") (ha : 0 < amount)
    (hsuff : amount ≤ sendReadBalance st) :
    (sendXP st userId toAddress amount now).2.2
      = [DbEffect.readBalance, DbEffect.checkSufficient,
          DbEffect.recordTransaction, DbEffect.writeBalance] := by
  unfold sendXP
  rw [if_neg ht, if_neg (not_le.mpr ha), if_neg (not_lt.mpr hsuff)]

/-- C6 amended witness: the trace of a successful debit of 2 against a
balance of 3. -/
theorem c6_amended_effect_order_witness :
    (sendXP ledgerState3 0 "dest" 2 0).2.2
      = [DbEffect.readBalance, DbEffect.checkSufficient,
          DbEffect.recordTransaction, DbEffect.writeBalance] :=
  c6_amended_effect_order ledgerState3 0 "dest" 2 0 (by simp) (by norm_num)
    (by simp [sendReadBalance, lookupBalance, ledgerState3, demoRow]; norm_num)

/-- C10: a debit whose amount exactly equals the stored balance passes
the sufficiency check (routes.ts 401 compares with strict less-than),
succeeds, and leaves the stored balance at exactly 0. -/
theorem c10_exact_debit_zeroes (st : DBState) (userId : Nat)
    (toAddress : String) (b : ℚ) (now : Nat)
    (ht : toAddress ≠ "") (hb : 0 < b)
    (hfind : lookupBalance st.walletBalances demoAddress = some b) :
    (sendXP st userId toAddress b now).1 = SendResult.ok b 0
    ∧ lookupBalance ((sendXP st userId toAddress b now).2.1).walletBalances
        demoAddress = some 0 := by
  have hread : sendReadBalance st = b := by simp [sendReadBalance, hfind]
  unfold sendXP
  rw [if_neg ht, if_neg (not_le.mpr hb), hread, if_neg (lt_irrefl b)]
  refine ⟨by simp, ?_⟩
  rw [lookupBalance_updateBalance, hfind]
  simp

/-- C10 witness: a debit of exactly 3 against a stored balance of 3
succeeds with new balance 0 and stores 0. -/
theorem c10_exact_debit_zeroes_witness :
    (sendXP ledgerState3 0 "dest" 3 0).1 = SendResult.ok 3 0
    ∧ lookupBalance ((sendXP ledgerState3 0 "dest" 3 0).2.1).walletBalances
        demoAddress = some 0 :=
  c10_exact_debit_zeroes ledgerState3 0 "dest" 3 0 (by simp) (by norm_num)
    (by simp [lookupBalance, ledgerState3, demoRow])

/-! ## The ledger under operation sequences (claim C2) -/

/-- sendXP on a non-positive amount: rejected, no mutation. -/
theorem sendXP_invalid (st : DBState) (userId : Nat) (toAddress : String)
    (amount : ℚ) (now : Nat) (ht : toAddress ≠ "") (ha : amount ≤ 0) :
    sendXP st userId toAddress amount now = (SendResult.invalidAmount, st, []) := by
  unfold sendXP
  rw [if_neg ht, if_pos ha]

/-- sendXP on an amount above the read balance: rejected, no mutation. -/
theorem sendXP_insufficient (st : DBState) (userId : Nat) (toAddress : String)
    (amount : ℚ) (now : Nat) (ht : toAddress ≠ "") (ha : ¬ amount ≤ 0)
    (hlt : sendReadBalance st < amount) :
    sendXP st userId toAddress amount now
      = (SendResult.insufficientBalance (sendReadBalance st) amount, st,
          [DbEffect.readBalance, DbEffect.checkSufficient]) := by
  unfold sendXP
  rw [if_neg ht, if_neg ha, if_pos hlt]

/-- sendXP on a covered positive amount: success, transaction recorded,
balance row rewritten. -/
theorem sendXP_ok (st : DBState) (userId : Nat) (toAddress : String)
    (amount : ℚ) (now : Nat) (ht : toAddress ≠ "") (ha : ¬ amount ≤ 0)
    (hle : amount ≤ sendReadBalance st) :
    sendXP st userId toAddress amount now
      = (SendResult.ok (sendReadBalance st) (sendReadBalance st - amount),
          { walletBalances :=
              updateBalance st.walletBalances demoAddress
                (sendReadBalance st - amount) now,
            transactions :=
              st.transactions ++ [sendTxn userId toAddress amount now] },
          [DbEffect.readBalance, DbEffect.checkSufficient,
            DbEffect.recordTransaction, DbEffect.writeBalance]) := by
  unfold sendXP
  rw [if_neg ht, if_neg ha, if_neg (not_lt.mpr hle)]

/-- deposit on a non-positive amount: rejected, no mutation. -/
theorem deposit_invalid (st : DBState) (userId : Nat) (amount : ℚ)
    (assetType : String) (now : Nat) (ha : amount ≤ 0) :
    deposit st userId amount assetType now = (DepositResult.invalidAmount, st) := by
  unfold deposit
  rw [if_pos ha]

/-- deposit on a positive amount: success, row updated or inserted,
transaction recorded. -/
theorem deposit_ok (st : DBState) (userId : Nat) (amount : ℚ)
    (assetType : String) (now : Nat) (ha : ¬ amount ≤ 0) :
    deposit st userId amount assetType now
      = (DepositResult.ok (depositReadBalance st)
            (depositReadBalance st + amount),
          { walletBalances :=
              if (lookupBalance st.walletBalances demoAddress).isSome then
                updateBalance st.walletBalances demoAddress
                  (depositReadBalance st + amount) now
              else
                st.walletBalances ++
                  [{ address := demoAddress,
                     balance := depositReadBalance st + amount,
                     assetType := assetType, updatedAt := now }],
            transactions :=
              st.transactions ++ [depositTxn userId assetType amount now] }) := by
  unfold deposit
  rw [if_neg ha]

/-- The deposit-path read is non-negative on a non-negative store. -/
theorem depositReadBalance_nonneg (st : DBState) (h : NonNegState st) :
    0 ≤ depositReadBalance st := by
  unfold depositReadBalance lookupBalance
  cases hf : st.walletBalances.find? (fun r => r.address == demoAddress) with
  | none => simp
  | some r =>
    simp only [Option.map_some', Option.getD_some]
    exact h r (List.mem_of_find?_eq_some hf)

/-- One ledger operation preserves non-negativity of every stored
balance. -/
theorem applyOp_nonneg (st : DBState) (op : LedgerOp) (h : NonNegState st) :
    NonNegState (applyOp st op) := by
  cases op with
  | send a =>
    rcases le_or_lt a 0 with ha | ha
    · simp only [applyOp]
      rw [sendXP_invalid st 0 "dest" a 0 (by simp) ha]
      exact h
    · rcases lt_or_le (sendReadBalance st) a with hlt | hle
      · simp only [applyOp]
        rw [sendXP_insufficient st 0 "dest" a 0 (by simp) (not_le.mpr ha) hlt]
        exact h
      · simp only [applyOp]
        rw [sendXP_ok st 0 "dest" a 0 (by simp) (not_le.mpr ha) hle]
        intro r hr
        exact nonneg_updateBalance st.walletBalances demoAddress _ 0 h
          (sub_nonneg.mpr hle) r hr
  | dep a =>
    rcases le_or_lt a 0 with ha | ha
    · simp only [applyOp]
      rw [deposit_invalid st 0 a "XP" 0 ha]
      exact h
    · simp only [applyOp]
      rw [deposit_ok st 0 a "XP" 0 (not_le.mpr ha)]
      have h0 := depositReadBalance_nonneg st h
      by_cases hs : (lookupBalance st.walletBalances demoAddress).isSome = true
      · intro r hr
        rw [if_pos hs] at hr
        exact nonneg_updateBalance st.walletBalances demoAddress _ 0 h
          (by linarith) r hr
      · intro r hr
        rw [if_neg hs] at hr
        rcases List.mem_append.mp hr with h2 | h2
        · exact h r h2
        · simp only [List.mem_singleton] at h2
          subst h2
          show (0 : ℚ) ≤ depositReadBalance st + a
          linarith

/-- One ledger operation keeps the demo-address row present. -/
theorem applyOp_rowExists (st : DBState) (op : LedgerOp) (h : rowExists st) :
    rowExists (applyOp st op) := by
  cases op with
  | send a =>
    rcases le_or_lt a 0 with ha | ha
    · simp only [applyOp]
      rw [sendXP_invalid st 0 "dest" a 0 (by simp) ha]
      exact h
    · rcases lt_or_le (sendReadBalance st) a with hlt | hle
      · simp only [applyOp]
        rw [sendXP_insufficient st 0 "dest" a 0 (by simp) (not_le.mpr ha) hlt]
        exact h
      · simp only [applyOp]
        rw [sendXP_ok st 0 "dest" a 0 (by simp) (not_le.mpr ha) hle]
        show (lookupBalance (updateBalance st.walletBalances demoAddress
            (sendReadBalance st - a) 0) demoAddress).isSome = true
        rw [lookupBalance_updateBalance]
        unfold rowExists at h
        simpa using h
  | dep a =>
    rcases le_or_lt a 0 with ha | ha
    · simp only [applyOp]
      rw [deposit_invalid st 0 a "XP" 0 ha]
      exact h
    · simp only [applyOp]
      rw [deposit_ok st 0 a "XP" 0 (not_le.mpr ha)]
      unfold rowExists at h
      show (lookupBalance (if (lookupBalance st.walletBalances demoAddress).isSome
          then _ else _) demoAddress).isSome = true
      rw [if_pos h, lookupBalance_updateBalance]
      simpa using h

/-- With the demo-address row present, one ledger operation moves the
stored balance by exactly the applied delta. -/
theorem applyOp_storedBalance (st : DBState) (op : LedgerOp)
    (h : rowExists st) :
    storedBalance (applyOp st op) = storedBalance st + appliedDelta st op := by
  obtain ⟨b, hb⟩ := Option.isSome_iff_exists.mp h
  have hsend : sendReadBalance st = b := by simp [sendReadBalance, hb]
  have hstored : storedBalance st = b := by simp [storedBalance, hb]
  cases op with
  | send a =>
    rcases le_or_lt a 0 with ha | ha
    · simp only [applyOp, appliedDelta]
      rw [sendXP_invalid st 0 "dest" a 0 (by simp) ha]
      simp
    · rcases lt_or_le (sendReadBalance st) a with hlt | hle
      · simp only [applyOp, appliedDelta]
        rw [sendXP_insufficient st 0 "dest" a 0 (by simp) (not_le.mpr ha) hlt]
        simp
      · simp only [applyOp, appliedDelta]
        rw [sendXP_ok st 0 "dest" a 0 (by simp) (not_le.mpr ha) hle]
        show storedBalance
            { walletBalances := updateBalance st.walletBalances demoAddress
                (sendReadBalance st - a) 0,
              transactions := st.transactions ++ [sendTxn 0 "dest" a 0] }
          = storedBalance st + -a
        unfold storedBalance
        show (lookupBalance (updateBalance st.walletBalances demoAddress
            (sendReadBalance st - a) 0) demoAddress).getD 0 = _
        rw [lookupBalance_updateBalance, hb]
        simp [hsend, hstored, hb]
        ring
  | dep a =>
    rcases le_or_lt a 0 with ha | ha
    · simp only [applyOp, appliedDelta]
      rw [deposit_invalid st 0 a "XP" 0 ha]
      simp
    · simp only [applyOp, appliedDelta]
      rw [deposit_ok st 0 a "XP" 0 (not_le.mpr ha)]
      show storedBalance _ = storedBalance st + a
      unfold storedBalance
      show (lookupBalance (if (lookupBalance st.walletBalances demoAddress).isSome
          then _ else _) demoAddress).getD 0 = _
      have hsome : (lookupBalance st.walletBalances demoAddress).isSome = true := h
      rw [if_pos hsome, lookupBalance_updateBalance, hb]
      simp [depositReadBalance, hb, hstored]

/-- C2: the claim that for every sequence of send/deposit operations
the stored balance is never negative and finally equals the sum of the
applied deltas fails on the code in its second half: against the empty
database, a send of 1 XP succeeds against the phantom default balance
of 1.0 (routes.ts 396-398) while its UPDATE matches no row
(routes.ts 427-430), so the applied deltas sum to -1 yet no row is
ever written and the stored balance reads 0. -/
theorem c2_counterexample :
    (sendXP emptyState 0 "dest" 1 0).1 = SendResult.ok 1 0
    ∧ appliedDeltas emptyState [LedgerOp.send 1] = -1
    ∧ (applyOps emptyState [LedgerOp.send 1]).walletBalances = []
    ∧ storedBalance (applyOps emptyState [LedgerOp.send 1]) = 0
    ∧ (0 : ℚ) ≠ -1 := by
  have hread : sendReadBalance emptyState = 1 := by
    simp [sendReadBalance, lookupBalance, emptyState]
  have hsend := sendXP_ok emptyState 0 "dest" 1 0 (by simp)
    (by norm_num) (by rw [hread])
  have hstate : applyOps emptyState [LedgerOp.send 1]
      = { walletBalances := [], transactions := [sendTxn 0 "dest" 1 0] } := by
    simp only [applyOps, applyOp]
    rw [hsend]
    simp [updateBalance, emptyState]
  refine ⟨?_, ?_, ?_, ?_, by norm_num⟩
  · rw [hsend, hread]
    simp
  · simp only [appliedDeltas, appliedDelta]
    rw [hsend]
    simp
  · rw [hstate]
  · rw [hstate]
    simp [storedBalance, lookupBalance]

/-- C2 as amended: provided a wallet row for the demo address exists
(ruling out the phantom-default send against a missing row) and all
stored balances start non-negative, the stored balance after any
sequence of send/deposit operations equals the starting balance plus
the sum of the applied deltas, and every stored balance is
non-negative at every intermediate point of the sequence. -/
theorem c2_amended_ledger (st : DBState) (ops : List LedgerOp)
    (hrow : rowExists st) (hnn : NonNegState st) :
    storedBalance (applyOps st ops)
        = storedBalance st + appliedDeltas st ops
    ∧ ∀ pre suf, ops = pre ++ suf → NonNegState (applyOps st pre) := by
  induction ops generalizing st with
  | nil =>
    refine ⟨by simp [applyOps, appliedDeltas], ?_⟩
    intro pre suf hps
    obtain ⟨rfl, rfl⟩ := List.append_eq_nil.mp hps.symm
    exact hnn
  | cons op rest ih =>
    obtain ⟨ihsum, ihpre⟩ := ih (applyOp st op)
      (applyOp_rowExists st op hrow) (applyOp_nonneg st op hnn)
    constructor
    · show storedBalance (applyOps (applyOp st op) rest) = _
      rw [ihsum, applyOp_storedBalance st op hrow]
      show _ = storedBalance st
        + (appliedDelta st op + appliedDeltas (applyOp st op) rest)
      ring
    · intro pre suf hps
      cases pre with
      | nil => exact hnn
      | cons p pre2 =>
        simp only [List.cons_append] at hps
        obtain ⟨rfl, hrest⟩ : op = p ∧ rest = pre2 ++ suf := by
          injection hps with h1 h2
          exact ⟨h1, h2⟩
        exact ihpre pre2 suf hrest

/-- C2 amended witness: from a stored balance of 3, the sequence
deposit 2, send 4, send 10 (the last one rejected) obeys the
sum-of-applied-deltas law, and the state after the first two
operations is still non-negative everywhere. -/
theorem c2_amended_ledger_witness :
    storedBalance (applyOps ledgerState3
        [LedgerOp.dep 2, LedgerOp.send 4, LedgerOp.send 10])
      = storedBalance ledgerState3
        + appliedDeltas ledgerState3
            [LedgerOp.dep 2, LedgerOp.send 4, LedgerOp.send 10]
    ∧ NonNegState (applyOps ledgerState3 [LedgerOp.dep 2, LedgerOp.send 4]) := by
  have hrow : rowExists ledgerState3 := by
    simp [rowExists, lookupBalance, ledgerState3, demoRow]
  have hnn : NonNegState ledgerState3 := by
    intro r hr
    simp only [ledgerState3, List.mem_singleton] at hr
    subst hr
    show (0 : ℚ) ≤ 3
    norm_num
  exact ⟨(c2_amended_ledger ledgerState3 _ hrow hnn).1,
    (c2_amended_ledger ledgerState3 _ hrow hnn).2
      [LedgerOp.dep 2, LedgerOp.send 4] [LedgerOp.send 10] rfl⟩

/-! ## Claims about transaction listing -/

/-- The database after one deposit of 5 at time 1 into the empty
database. -/
def depOnce : DBState := (deposit emptyState 0 5 "XP" 1).2

/-- The database after a further deposit of 7 at time 2. -/
def depTwice : DBState := (deposit depOnce 0 7 "XP" 2).2

/-- C7: the claim that listing a user's transactions returns them
most-recent-first fails on the code: getTransactionsByUserId
(storage.ts 131-133) has no ORDER BY, so rows come back in table
insertion order, oldest first.  After two deposits at times 1 and 2,
the listing returns the time-1 transaction first, not the time-2
one. -/
theorem c7_counterexample :
    getTransactionsByUserId depTwice 0
        = [depositTxn 0 "XP" 5 1, depositTxn 0 "XP" 7 2]
    ∧ (depositTxn 0 "XP" 5 1).createdAt < (depositTxn 0 "XP" 7 2).createdAt
    ∧ getTransactionsByUserId depTwice 0
        ≠ [depositTxn 0 "XP" 7 2, depositTxn 0 "XP" 5 1] := by
  have h1 : depOnce
      = { walletBalances := [demoRow 5 1],
          transactions := [depositTxn 0 "XP" 5 1] } := by
    unfold depOnce
    rw [deposit_ok emptyState 0 5 "XP" 1 (by norm_num)]
    simp [lookupBalance, emptyState, depositReadBalance, demoRow]
  have h2 : depTwice
      = { walletBalances := [demoRow 12 2],
          transactions := [depositTxn 0 "XP" 5 1, depositTxn 0 "XP" 7 2] } := by
    unfold depTwice
    rw [h1, deposit_ok _ 0 7 "XP" 2 (by norm_num)]
    simp [lookupBalance, depositReadBalance, updateBalance, demoRow]
    norm_num
  have heval : getTransactionsByUserId depTwice 0
      = [depositTxn 0 "XP" 5 1, depositTxn 0 "XP" 7 2] := by
    rw [h2]
    simp [getTransactionsByUserId, depositTxn]
  refine ⟨heval, by simp [depositTxn], ?_⟩
  rw [heval]
  intro hcontra
  have := List.head_eq_of_cons_eq hcontra
  simp [depositTxn] at this

/-- C7 as amended: listing a user's transactions returns a finite
subsequence of the transactions table in its own (insertion) order:
no reordering, in particular no most-recent-first sort, is applied. -/
theorem c7_amended_insertion_order (st : DBState) (userId : Nat) :
    (getTransactionsByUserId st userId).Sublist st.transactions :=
  List.filter_sublist _
